import Mathlib

/-!
Shallow embedding of the face-detection / face-recognition WebSocket service
(`face_detection_ws.py`, `face_recognition_ws.py`): the wire codec
(`struct.pack` / `struct.unpack` with big-endian formats), the per-message
processing pipelines of both handlers, the error handling at the
`on_message` boundary, and the per-connection serialization discipline of
the `asyncio.Lock` guarding `on_message`.

Bytes are modelled as `Nat` (valid when `< 256`); external collaborators
(`cv2.imdecode`, `DeepFace.extract_faces`, `DeepFace.represent`,
`cv2.imencode`) are parameters of the pipeline definitions, so every
definition stays executable once they are instantiated.
-/

namespace FaceWS

/-- A wire byte, valid when `< 256`. -/
abbrev Byte := Nat

/-- Little-endian base-256 digits of `n`, `w` bytes wide (helper for `packBE`). -/
def packLE : Nat → Nat → List Byte
  | 0, _ => []
  | w + 1, n => n % 256 :: packLE w (n / 256)

/-- Model of `struct.pack` with a big-endian unsigned format of width `w`
(`!Q` is `packBE 8`, `!I` is `packBE 4`): most-significant byte first. -/
def packBE (w : Nat) (n : Nat) : List Byte :=
  (packLE w n).reverse

/-- Value of a little-endian base-256 digit list (helper for `unpackBE`). -/
def unpackLE : List Byte → Nat
  | [] => 0
  | b :: rest => b + 256 * unpackLE rest

/-- Model of `struct.unpack` with a big-endian unsigned format: interprets
the byte list most-significant first. -/
def unpackBE (bs : List Byte) : Nat :=
  unpackLE bs.reverse

theorem packLE_length (w n : Nat) : (packLE w n).length = w := by
  induction w generalizing n with
  | zero => rfl
  | succ w ih => simp [packLE, ih]

theorem packBE_length (w n : Nat) : (packBE w n).length = w := by
  simp [packBE, packLE_length]

theorem unpackLE_packLE (w n : Nat) (h : n < 256 ^ w) :
    unpackLE (packLE w n) = n := by
  induction w generalizing n with
  | zero =>
    simp [pow_zero] at h
    simp [packLE, unpackLE, h]
  | succ w ih =>
    have hdiv : n / 256 < 256 ^ w := by
      rw [Nat.div_lt_iff_lt_mul (by norm_num : 0 < 256)]
      calc n < 256 ^ (w + 1) := h
        _ = 256 ^ w * 256 := by ring
    simp only [packLE, unpackLE, ih (n / 256) hdiv]
    omega

theorem unpackBE_packBE (w n : Nat) (h : n < 256 ^ w) :
    unpackBE (packBE w n) = n := by
  simp [unpackBE, packBE, List.reverse_reverse, unpackLE_packLE w n h]

theorem packLE_unpackLE (bs : List Byte) (hv : ∀ b ∈ bs, b < 256) :
    packLE bs.length (unpackLE bs) = bs := by
  induction bs with
  | nil => rfl
  | cons b rest ih =>
    have hb : b < 256 := hv b (List.mem_cons_self b rest)
    have hrest : ∀ x ∈ rest, x < 256 := fun x hx => hv x (List.mem_cons_of_mem b hx)
    have hmod : (b + 256 * unpackLE rest) % 256 = b := by
      rw [Nat.add_mul_mod_self_left]
      exact Nat.mod_eq_of_lt hb
    have hdivq : (b + 256 * unpackLE rest) / 256 = unpackLE rest := by
      rw [Nat.add_mul_div_left b _ (by norm_num : 0 < 256)]
      rw [Nat.div_eq_of_lt hb, Nat.zero_add]
    simp only [List.length_cons, packLE, unpackLE, hmod, hdivq, ih hrest]

theorem packBE_unpackBE (bs : List Byte) (hv : ∀ b ∈ bs, b < 256) :
    packBE bs.length (unpackBE bs) = bs := by
  have hv' : ∀ b ∈ bs.reverse, b < 256 := by
    intro b hb
    exact hv b (List.mem_reverse.mp hb)
  have := packLE_unpackLE bs.reverse hv'
  rw [List.length_reverse] at this
  simp [packBE, unpackBE, this]

theorem unpackLE_lt (bs : List Byte) (hv : ∀ b ∈ bs, b < 256) :
    unpackLE bs < 256 ^ bs.length := by
  induction bs with
  | nil => simp [unpackLE]
  | cons b rest ih =>
    have hb : b < 256 := hv b (List.mem_cons_self b rest)
    have hrest : ∀ x ∈ rest, x < 256 := fun x hx => hv x (List.mem_cons_of_mem b hx)
    have := ih hrest
    simp only [unpackLE, List.length_cons, pow_succ]
    calc b + 256 * unpackLE rest
        < 256 + 256 * unpackLE rest := Nat.add_lt_add_right hb (256 * unpackLE rest)
      _ = 256 * (unpackLE rest + 1) := by ring
      _ ≤ 256 * 256 ^ rest.length := Nat.mul_le_mul_left 256 this
      _ = 256 ^ rest.length * 256 := by ring

theorem unpackBE_lt (bs : List Byte) (hv : ∀ b ∈ bs, b < 256) :
    unpackBE bs < 256 ^ bs.length := by
  have hv' : ∀ b ∈ bs.reverse, b < 256 := by
    intro b hb
    exact hv b (List.mem_reverse.mp hb)
  have := unpackLE_lt bs.reverse hv'
  rwa [unpackBE, ← List.length_reverse bs]

/-- Python exceptions that can escape a pipeline stage:
`struct.error` (from `struct.unpack` on a short buffer), `ValueError`
(raised explicitly by the handlers), `IndexError` (`embedding[0]` on an
empty result list), and any exception raised inside an external analyzer
call (`DeepFace.extract_faces` / `DeepFace.represent`). -/
inductive PyError
  | structError (msg : String)
  | valueError (msg : String)
  | indexError (msg : String)
  | analyzerError (msg : String)
deriving DecidableEq, Repr

/-- Model of Python `str(e)`: the exception's message. -/
def pyStr : PyError → String
  | .structError msg => msg
  | .valueError msg => msg
  | .indexError msg => msg
  | .analyzerError msg => msg

/-- Model of `struct.unpack('!Q', bs)[0]`: requires a buffer of exactly 8
bytes (the handlers pass `message[:8]`, which is shorter than 8 only when
the whole message is), else raises `struct.error`. -/
def unpackQ (bs : List Byte) : Except PyError Nat :=
  if bs.length = 8 then .ok (unpackBE bs)
  else .error (.structError "unpack requires a buffer of 8 bytes")

/-- In-memory decoded image: a pixel buffer (each pixel a channel triple,
in the channel order the buffer currently uses) plus the dtype flag that
`_normalize_face` branches on (`face.dtype != np.uint8`). -/
structure Img where
  isUint8 : Bool
  pix : List (Int × Int × Int)
deriving DecidableEq, Repr

/-- Model of `cv2.cvtColor(face, cv2.COLOR_RGB2BGR)`: reverses each
pixel's channel triple. -/
def cvtColorRGB2BGR (f : Img) : Img :=
  { f with pix := f.pix.map (fun p => (p.2.2, p.2.1, p.1)) }

/-- All scalar channel values of an image, flattened. -/
def flatPix (f : Img) : List Int :=
  f.pix.flatMap (fun p => [p.1, p.2.1, p.2.2])

/-- Minimum of a scalar list (0 on the empty list; only used on non-empty
buffers). -/
def listMin : List Int → Int
  | [] => 0
  | x :: xs => xs.foldl min x

/-- Maximum of a scalar list (0 on the empty list). -/
def listMax : List Int → Int
  | [] => 0
  | x :: xs => xs.foldl max x

/-- The affine rescaling `cv2.normalize(·, None, 0, 255, cv2.NORM_MINMAX)`
applies to each scalar: the buffer's own value range `[mn, mx]` is mapped
linearly onto `[0, 255]` (integer rounding of the followup
`astype(np.uint8)` folded in). -/
def scaleMinMax (mn mx x : Int) : Int :=
  (x - mn) * 255 / (mx - mn)

/-- Model of `cv2.normalize(face, None, 0, 255, cv2.NORM_MINMAX)` followed
by `astype(np.uint8)`: every channel value is rescaled from the buffer's
min-max range onto `[0, 255]` and the result is 8-bit. -/
def normalizeMinMax (f : Img) : Img :=
  let vals := flatPix f
  let mn := listMin vals
  let mx := listMax vals
  { isUint8 := true,
    pix := f.pix.map (fun p =>
      (scaleMinMax mn mx p.1, scaleMinMax mn mx p.2.1, scaleMinMax mn mx p.2.2)) }

/-- A message written back on the WebSocket: `write_message(..., binary=True)`
or a plain-text `write_message` (error path). -/
inductive OutMsg
  | binary (payload : List Byte)
  | text (s : String)
deriving DecidableEq, Repr

namespace FaceAlignmentHandler

/-- Model of `FaceAlignmentHandler._decode_image`: `cv2.imdecode` is the
abstract parameter `imdecode` (returning `none` where the codec returns
`None`); a `none` result raises `ValueError("Failed to decode image")`. -/
def _decode_image (imdecode : List Byte → Option Img) (image_data : List Byte) :
    Except PyError Img :=
  match imdecode image_data with
  | some img => .ok img
  | none => .error (.valueError "Failed to decode image")

/-- Model of `FaceAlignmentHandler._detect_faces`: the external
`DeepFace.extract_faces` call, abstract; it returns the analyzer's face
list in detection order or raises. -/
def _detect_faces (extract_faces : Img → Except PyError (List Img)) (img : Img) :
    Except PyError (List Img) :=
  extract_faces img

/-- Model of `FaceAlignmentHandler._normalize_face`: min-max normalize to
8-bit only when the dtype is not already `uint8`, then always convert
RGB→BGR. -/
def _normalize_face (face : Img) : Img :=
  cvtColorRGB2BGR (if face.isUint8 then face else normalizeMinMax face)

/-- Model of `FaceAlignmentHandler._encode_face`: `cv2.imencode('.png', ·)`
is the abstract parameter `imencode`; an unsuccessful encode raises
`ValueError("Failed to encode face")`. -/
def _encode_face (imencode : Img → Option (List Byte)) (face : Img) :
    Except PyError (List Byte) :=
  match imencode face with
  | some buffer => .ok buffer
  | none => .error (.valueError "Failed to encode face")

/-- The per-face part of `_prepare_response`'s loop body: for each face in
order, `[struct.pack('!I', len(face_bytes)), face_bytes]`; the first encode
failure aborts the whole loop (the exception propagates). -/
def faceParts (imencode : Img → Option (List Byte)) :
    List Img → Except PyError (List (List Byte))
  | [] => .ok []
  | face :: rest => do
    let face_bytes ← _encode_face imencode (_normalize_face face)
    let tail ← faceParts imencode rest
    .ok ((packBE 4 face_bytes.length ++ face_bytes) :: tail)

/-- Model of `FaceAlignmentHandler._prepare_response`:
`struct.pack('!Q', message_id)`, `struct.pack('!I', len(face_objs))`, then
the per-face parts, joined. -/
def _prepare_response (imencode : Img → Option (List Byte)) (message_id : Nat)
    (face_objs : List Img) : Except PyError (List Byte) := do
  let parts ← faceParts imencode face_objs
  .ok (packBE 8 message_id ++ packBE 4 face_objs.length ++ parts.flatten)

/-- Model of `FaceAlignmentHandler._process_message`: unpack the 8-byte id
from `message[:8]`, decode `message[8:]`, detect faces, raise
`ValueError("No faces detected")` on an empty face list, else prepare and
return the binary response that is written. -/
def _process_message (imdecode : List Byte → Option Img)
    (extract_faces : Img → Except PyError (List Img))
    (imencode : Img → Option (List Byte)) (message : List Byte) :
    Except PyError (List Byte) := do
  let message_id ← unpackQ (message.take 8)
  let img ← _decode_image imdecode (message.drop 8)
  let face_objs ← _detect_faces extract_faces img
  if face_objs.isEmpty then
    Except.error (.valueError "No faces detected")
  else do
    let response ← _prepare_response imencode message_id face_objs
    .ok response

/-- Model of `FaceAlignmentHandler.on_message`: run `_process_message`
under the per-connection lock; any exception is caught and written as the
text message `f"Error: {str(e)}"`, otherwise the binary response is
written. Exactly one message is written either way. -/
def on_message (imdecode : List Byte → Option Img)
    (extract_faces : Img → Except PyError (List Img))
    (imencode : Img → Option (List Byte)) (message : List Byte) : OutMsg :=
  match _process_message imdecode extract_faces imencode message with
  | .ok response => .binary response
  | .error e => .text ("Error: " ++ pyStr e)

/-- One connection's lifetime under the per-connection `asyncio.Lock`:
inbound messages are handled one at a time in arrival order, each
producing exactly one outbound message, and an error response leaves the
session processing the remaining messages. -/
def session (imdecode : List Byte → Option Img)
    (extract_faces : Img → Except PyError (List Img))
    (imencode : Img → Option (List Byte)) (messages : List (List Byte)) :
    List OutMsg :=
  messages.map (on_message imdecode extract_faces imencode)

end FaceAlignmentHandler

namespace FaceRecognitionHandler

/-- An `np.float32` scalar, modelled by its 4-byte raw representation (the
unit `embedding.tobytes()` concatenates). -/
structure Float32 where
  bytes : List Byte
  len4 : bytes.length = 4

/-- Model of `embedding.tobytes()` on a 1-D `np.float32` array: the raw
4-byte representations concatenated in embedding order. -/
def tobytes (embedding : List Float32) : List Byte :=
  embedding.flatMap (fun v => v.bytes)

/-- Model of `FaceRecognitionHandler._decode_image` (identical to the
alignment handler's). -/
def _decode_image (imdecode : List Byte → Option Img) (image_data : List Byte) :
    Except PyError Img :=
  match imdecode image_data with
  | some img => .ok img
  | none => .error (.valueError "Failed to decode image")

/-- Model of `FaceRecognitionHandler._get_embedding`: the external
`DeepFace.represent` call (abstract parameter, one float32 vector per
detected face, in detection order) followed by `embedding[0]['embedding']`
— only the first result is kept; an empty result list raises `IndexError`. -/
def _get_embedding (represent : Img → Except PyError (List (List Float32)))
    (img : Img) : Except PyError (List Float32) := do
  let embedding ← represent img
  match embedding with
  | [] => .error (.indexError "list index out of range")
  | e0 :: _ => .ok e0

/-- Model of `FaceRecognitionHandler._prepare_response`:
`struct.pack('!Q', message_id) + struct.pack('!I', len(embedding_bytes)) +
embedding_bytes`. -/
def _prepare_response (message_id : Nat) (embedding : List Float32) :
    List Byte :=
  let message_id_bytes := packBE 8 message_id
  let embedding_bytes := tobytes embedding
  let embedding_size := packBE 4 embedding_bytes.length
  message_id_bytes ++ embedding_size ++ embedding_bytes

/-- Model of `FaceRecognitionHandler._process_message`: unpack the id,
decode the payload, get the (first) embedding, return the binary response
that is written. (The `if embedding is None` guard in the source never
fires, because `np.array(...)` is never `None`.) -/
def _process_message (imdecode : List Byte → Option Img)
    (represent : Img → Except PyError (List (List Float32)))
    (message : List Byte) : Except PyError (List Byte) := do
  let message_id ← unpackQ (message.take 8)
  let img ← _decode_image imdecode (message.drop 8)
  let embedding ← _get_embedding represent img
  .ok (_prepare_response message_id embedding)

/-- Model of `FaceRecognitionHandler.on_message`: any exception is caught
and written as the text `f"Error processing image: {str(e)}"`, otherwise
the binary response is written. -/
def on_message (imdecode : List Byte → Option Img)
    (represent : Img → Except PyError (List (List Float32)))
    (message : List Byte) : OutMsg :=
  match _process_message imdecode represent message with
  | .ok response => .binary response
  | .error e => .text ("Error processing image: " ++ pyStr e)

/-- One connection's lifetime for the recognition handler, messages
handled in arrival order under the per-connection lock. -/
def session (imdecode : List Byte → Option Img)
    (represent : Img → Except PyError (List (List Float32)))
    (messages : List (List Byte)) : List OutMsg :=
  messages.map (on_message imdecode represent)

end FaceRecognitionHandler

/-!
Operational model of one connection under the per-connection guard.

Tornado delivers a connection's WebSocket messages in arrival order, each
invocation of `on_message` first awaits `self.processing_lock`
(an `asyncio.Lock`, whose waiters are woken in FIFO order), runs the
pipeline — whose offloaded stages may take arbitrarily many scheduler
steps — writes exactly one response, and only then releases the lock.
`SessState.running` is an `Option`: at most one pipeline run is in flight
at a time, by the lock. A message arriving while the lock is held is
appended to the FIFO wait queue (`SStep.arrive`), never dropped.
-/

/-- State of one connection: messages not yet arrived (in transport
order), coroutines waiting on the per-connection lock (FIFO), the single
in-flight pipeline run with its remaining offload-step budget, and the
responses written so far. -/
structure SessState where
  incoming : List (List Byte)
  waiting : List (List Byte)
  running : Option (List Byte × Nat)
  outputs : List OutMsg

/-- One scheduler step of the connection, for a handler body `h` (the
response `on_message` computes and writes for a message):
a message arrives and queues on the lock; the head waiter acquires the
free lock with an arbitrary duration `d` of pending offloaded work; the
in-flight run does one unit of offloaded work; or the in-flight run
finishes, writes its one response, and releases the lock. -/
inductive SStep (h : List Byte → OutMsg) : SessState → SessState → Prop
  | arrive (m : List Byte) (rest w : List (List Byte))
      (r : Option (List Byte × Nat)) (o : List OutMsg) :
      SStep h ⟨m :: rest, w, r, o⟩ ⟨rest, w ++ [m], r, o⟩
  | acquire (inc : List (List Byte)) (m : List Byte) (w : List (List Byte))
      (o : List OutMsg) (d : Nat) :
      SStep h ⟨inc, m :: w, none, o⟩ ⟨inc, w, some (m, d), o⟩
  | work (inc w : List (List Byte)) (m : List Byte) (d : Nat) (o : List OutMsg) :
      SStep h ⟨inc, w, some (m, d + 1), o⟩ ⟨inc, w, some (m, d), o⟩
  | finish (inc w : List (List Byte)) (m : List Byte) (o : List OutMsg) :
      SStep h ⟨inc, w, some (m, 0), o⟩ ⟨inc, w, none, o ++ [h m]⟩

/-- Any interleaving of connection scheduler steps. -/
def Steps (h : List Byte → OutMsg) : SessState → SessState → Prop :=
  Relation.ReflTransGen (SStep h)

/-- Messages held by the in-flight slot. -/
def runList : Option (List Byte × Nat) → List (List Byte)
  | none => []
  | some (m, _) => [m]

/-- Messages not yet answered, in the order they will be answered. -/
def pendingOf (s : SessState) : List (List Byte) :=
  runList s.running ++ s.waiting ++ s.incoming

/-- Scheduler invariant: the responses written so far are exactly the
handler's responses to an initial prefix of the original message
sequence, and the unanswered messages follow in order. -/
def SessInv (h : List Byte → OutMsg) (msgs : List (List Byte))
    (s : SessState) : Prop :=
  ∃ done, s.outputs = done.map h ∧ done ++ pendingOf s = msgs

theorem sessInv_step {h : List Byte → OutMsg} {msgs : List (List Byte)}
    {s s' : SessState} (hs : SStep h s s') (hi : SessInv h msgs s) :
    SessInv h msgs s' := by
  obtain ⟨done, hout, hpend⟩ := hi
  cases hs with
  | arrive m rest w r o =>
    refine ⟨done, hout, ?_⟩
    simp only [pendingOf] at hpend ⊢
    simpa [List.append_assoc] using hpend
  | acquire inc m w o d =>
    refine ⟨done, hout, ?_⟩
    simp only [pendingOf, runList] at hpend ⊢
    simpa [List.append_assoc] using hpend
  | work inc w m d o =>
    exact ⟨done, hout, hpend⟩
  | finish inc w m o =>
    refine ⟨done ++ [m], ?_, ?_⟩
    · simp only [List.map_append, List.map_cons, List.map_nil]
      simp at hout
      simp [hout]
    · simp only [pendingOf, runList] at hpend ⊢
      simpa [List.append_assoc] using hpend

theorem sessInv_steps {h : List Byte → OutMsg} {msgs : List (List Byte)}
    {s s' : SessState} (hs : Steps h s s') (hi : SessInv h msgs s) :
    SessInv h msgs s' := by
  induction hs with
  | refl => exact hi
  | tail _ hstep ih => exact sessInv_step hstep ih

/-- C5: for every request message of at least 8 bytes, the decode step of
`_process_message` recovers the correlation_id as the big-endian u64 value
of exactly the first 8 bytes (`struct.unpack('!Q', message[:8])`), the
payload handed to the pipeline is exactly the remaining bytes
(`message[8:]`), the two parts partition the message, and re-encoding the
recovered id with `struct.pack('!Q', ·)` reproduces the 8-byte header
byte-for-byte (round-trip). -/
theorem C5_decode_request_roundtrip (message : List Byte)
    (hlen : 8 ≤ message.length) (hv : ∀ b ∈ message, b < 256) :
    unpackQ (message.take 8) = .ok (unpackBE (message.take 8))
    ∧ packBE 8 (unpackBE (message.take 8)) = message.take 8
    ∧ message.take 8 ++ message.drop 8 = message := by
  have htl : (message.take 8).length = 8 := by
    rw [List.length_take]
    omega
  have hvt : ∀ b ∈ message.take 8, b < 256 :=
    fun b hb => hv b (List.take_subset 8 message hb)
  refine ⟨?_, ?_, List.take_append_drop 8 message⟩
  · simp [unpackQ, htl]
  · have := packBE_unpackBE (message.take 8) hvt
    rwa [htl] at this

/-- Closed instance of C5 at the 9-byte message `[0,0,0,0,0,0,0,5,9]`:
id 5, payload `[9]`. -/
theorem C5_decode_request_roundtrip_witness :
    8 ≤ ([0, 0, 0, 0, 0, 0, 0, 5, 9] : List Byte).length
    ∧ (unpackQ (([0, 0, 0, 0, 0, 0, 0, 5, 9] : List Byte).take 8)
        = .ok (unpackBE (([0, 0, 0, 0, 0, 0, 0, 5, 9] : List Byte).take 8))
      ∧ packBE 8 (unpackBE (([0, 0, 0, 0, 0, 0, 0, 5, 9] : List Byte).take 8))
        = ([0, 0, 0, 0, 0, 0, 0, 5, 9] : List Byte).take 8
      ∧ ([0, 0, 0, 0, 0, 0, 0, 5, 9] : List Byte).take 8
          ++ ([0, 0, 0, 0, 0, 0, 0, 5, 9] : List Byte).drop 8
        = [0, 0, 0, 0, 0, 0, 0, 5, 9]) :=
  ⟨by decide,
   C5_decode_request_roundtrip [0, 0, 0, 0, 0, 0, 0, 5, 9] (by decide) (by decide)⟩

/-- C6: for every request message shorter than 8 bytes, both handlers'
`_process_message` fail with the `struct.error` raised by
`struct.unpack('!Q', message[:8])` (the `MalformedEnvelope` of the spec),
and the result is the same for every choice of the decode, analyze and
encode stage functions — no pipeline stage runs. -/
theorem C6_short_message_malformed (message : List Byte)
    (hshort : message.length < 8) :
    (∀ (imdecode : List Byte → Option Img)
       (extract_faces : Img → Except PyError (List Img))
       (imencode : Img → Option (List Byte)),
       FaceAlignmentHandler._process_message imdecode extract_faces imencode message
         = .error (.structError "unpack requires a buffer of 8 bytes"))
    ∧ (∀ (imdecode : List Byte → Option Img)
         (represent : Img → Except PyError (List (List FaceRecognitionHandler.Float32))),
       FaceRecognitionHandler._process_message imdecode represent message
         = .error (.structError "unpack requires a buffer of 8 bytes")) := by
  have htl : (message.take 8).length ≠ 8 := by
    rw [List.length_take]
    omega
  have hq : unpackQ (message.take 8)
      = .error (.structError "unpack requires a buffer of 8 bytes") := by
    simp only [unpackQ]
    rw [if_neg htl]
  constructor
  · intro imdecode extract_faces imencode
    simp [FaceAlignmentHandler._process_message, hq, Bind.bind, Except.bind]
  · intro imdecode represent
    simp [FaceRecognitionHandler._process_message, hq, Bind.bind, Except.bind]

/-- Closed instance of C6 at the 3-byte message `[1,2,3]` with stub
stages. -/
theorem C6_short_message_malformed_witness :
    ([1, 2, 3] : List Byte).length < 8
    ∧ FaceAlignmentHandler._process_message (fun _ => none) (fun _ => .ok [])
        (fun _ => none) [1, 2, 3]
        = .error (.structError "unpack requires a buffer of 8 bytes")
    ∧ FaceRecognitionHandler._process_message (fun _ => none)
        (fun _ => (.ok [] : Except PyError (List (List FaceRecognitionHandler.Float32))))
        [1, 2, 3]
        = .error (.structError "unpack requires a buffer of 8 bytes") :=
  ⟨by decide,
   (C6_short_message_malformed [1, 2, 3] (by decide)).1 _ _ _,
   (C6_short_message_malformed [1, 2, 3] (by decide)).2 _ _⟩

/-- C2: on both handlers, any error a pipeline run raises (whatever stage
functions produced it, named or unexpected) is caught at the `on_message`
boundary and turned into exactly one text response; the session keeps
processing the remaining messages of the connection identically (the
connection stays open), and each inbound message yields exactly one
outbound message — the failed run is never re-executed. -/
theorem C2_error_caught_at_boundary :
    (∀ (imdecode : List Byte → Option Img)
       (extract_faces : Img → Except PyError (List Img))
       (imencode : Img → Option (List Byte)) (message : List Byte) (e : PyError),
       FaceAlignmentHandler._process_message imdecode extract_faces imencode message
         = .error e →
       FaceAlignmentHandler.on_message imdecode extract_faces imencode message
         = .text ("Error: " ++ pyStr e)
       ∧ ∀ rest, FaceAlignmentHandler.session imdecode extract_faces imencode
             (message :: rest)
           = .text ("Error: " ++ pyStr e)
             :: FaceAlignmentHandler.session imdecode extract_faces imencode rest)
    ∧ (∀ (imdecode : List Byte → Option Img)
         (represent : Img → Except PyError (List (List FaceRecognitionHandler.Float32)))
         (message : List Byte) (e : PyError),
       FaceRecognitionHandler._process_message imdecode represent message = .error e →
       FaceRecognitionHandler.on_message imdecode represent message
         = .text ("Error processing image: " ++ pyStr e)
       ∧ ∀ rest, FaceRecognitionHandler.session imdecode represent (message :: rest)
           = .text ("Error processing image: " ++ pyStr e)
             :: FaceRecognitionHandler.session imdecode represent rest)
    ∧ (∀ (imdecode : List Byte → Option Img)
         (extract_faces : Img → Except PyError (List Img))
         (imencode : Img → Option (List Byte)) (msgs : List (List Byte)),
       (FaceAlignmentHandler.session imdecode extract_faces imencode msgs).length
         = msgs.length)
    ∧ (∀ (imdecode : List Byte → Option Img)
         (represent : Img → Except PyError (List (List FaceRecognitionHandler.Float32)))
         (msgs : List (List Byte)),
       (FaceRecognitionHandler.session imdecode represent msgs).length = msgs.length) := by
  refine ⟨?_, ?_, ?_, ?_⟩
  · intro imdecode extract_faces imencode message e herr
    constructor
    · simp [FaceAlignmentHandler.on_message, herr]
    · intro rest
      simp [FaceAlignmentHandler.session, FaceAlignmentHandler.on_message, herr]
  · intro imdecode represent message e herr
    constructor
    · simp [FaceRecognitionHandler.on_message, herr]
    · intro rest
      simp [FaceRecognitionHandler.session, FaceRecognitionHandler.on_message, herr]
  · intro imdecode extract_faces imencode msgs
    simp [FaceAlignmentHandler.session]
  · intro imdecode represent msgs
    simp [FaceRecognitionHandler.session]

/-- Closed instance of C2: the 1-byte message `[1]` makes both pipelines
raise, each connection writes the one text error and processes the
following message `[1,2,3]` as usual. -/
theorem C2_error_caught_at_boundary_witness :
    FaceAlignmentHandler.on_message (fun _ => none) (fun _ => .ok [])
        (fun _ => none) [1]
      = .text ("Error: " ++ pyStr (.structError "unpack requires a buffer of 8 bytes"))
    ∧ FaceAlignmentHandler.session (fun _ => none) (fun _ => .ok [])
        (fun _ => none) ([1] :: [[1, 2, 3]])
      = .text ("Error: " ++ pyStr (.structError "unpack requires a buffer of 8 bytes"))
        :: FaceAlignmentHandler.session (fun _ => none) (fun _ => .ok [])
             (fun _ => none) [[1, 2, 3]]
    ∧ FaceRecognitionHandler.on_message (fun _ => none)
        (fun _ => (.ok [] : Except PyError (List (List FaceRecognitionHandler.Float32))))
        [1]
      = .text ("Error processing image: "
          ++ pyStr (.structError "unpack requires a buffer of 8 bytes")) :=
  ⟨((C2_error_caught_at_boundary.1 (fun _ => none) (fun _ => .ok []) (fun _ => none)
      [1] _ rfl).1),
   ((C2_error_caught_at_boundary.1 (fun _ => none) (fun _ => .ok []) (fun _ => none)
      [1] _ rfl).2 [[1, 2, 3]]),
   ((C2_error_caught_at_boundary.2.1 (fun _ => none)
      (fun _ => (.ok [] : Except PyError (List (List FaceRecognitionHandler.Float32))))
      [1] _ rfl).1)⟩

/-- C7: on the alignment path, a decodable payload for which the analyzer
returns zero faces makes the pipeline raise
`ValueError("No faces detected")`; the client receives the single text
response `"Error: No faces detected"` (which contains
`"No faces detected"`), and the session processes a following request
normally. -/
theorem C7_no_faces_detected (imdecode : List Byte → Option Img)
    (extract_faces : Img → Except PyError (List Img))
    (imencode : Img → Option (List Byte)) (cid : Nat) (payload : List Byte)
    (img : Img) (hdec : imdecode payload = some img)
    (hfaces : extract_faces img = .ok []) :
    FaceAlignmentHandler._process_message imdecode extract_faces imencode
        (packBE 8 cid ++ payload)
      = .error (.valueError "No faces detected")
    ∧ FaceAlignmentHandler.on_message imdecode extract_faces imencode
        (packBE 8 cid ++ payload)
      = .text ("Error: " ++ "No faces detected")
    ∧ ∀ m' rest, FaceAlignmentHandler.session imdecode extract_faces imencode
          ((packBE 8 cid ++ payload) :: m' :: rest)
        = .text ("Error: " ++ "No faces detected")
          :: FaceAlignmentHandler.on_message imdecode extract_faces imencode m'
          :: FaceAlignmentHandler.session imdecode extract_faces imencode rest := by
  have htake : (packBE 8 cid ++ payload).take 8 = packBE 8 cid :=
    List.take_left' (packBE_length 8 cid)
  have hdrop : (packBE 8 cid ++ payload).drop 8 = payload :=
    List.drop_left' (packBE_length 8 cid)
  have hproc : FaceAlignmentHandler._process_message imdecode extract_faces imencode
      (packBE 8 cid ++ payload) = .error (.valueError "No faces detected") := by
    simp [FaceAlignmentHandler._process_message, htake, hdrop, unpackQ,
      packBE_length, FaceAlignmentHandler._decode_image, hdec,
      FaceAlignmentHandler._detect_faces, hfaces, Bind.bind, Except.bind]
  refine ⟨hproc, ?_, ?_⟩
  · simp [FaceAlignmentHandler.on_message, hproc, pyStr]
  · intro m' rest
    simp [FaceAlignmentHandler.session, FaceAlignmentHandler.on_message, hproc, pyStr]

theorem faceParts_ok (imencode : Img → Option (List Byte)) (faces : List Img)
    (bs : List (List Byte))
    (henc : faces.map (fun f => imencode (FaceAlignmentHandler._normalize_face f))
      = bs.map some) :
    FaceAlignmentHandler.faceParts imencode faces
      = .ok (bs.map (fun b => packBE 4 b.length ++ b)) := by
  induction faces generalizing bs with
  | nil =>
    cases bs with
    | nil => rfl
    | cons b bs' => simp at henc
  | cons f fs ih =>
    cases bs with
    | nil => simp at henc
    | cons b bs' =>
      simp only [List.map_cons, List.cons.injEq] at henc
      obtain ⟨hf, hfs⟩ := henc
      simp [FaceAlignmentHandler.faceParts, FaceAlignmentHandler._encode_face, hf,
        ih bs' hfs, Bind.bind, Except.bind]

theorem faceParts_err (imencode : Img → Option (List Byte)) (faces : List Img)
    (h : ∃ f ∈ faces, imencode (FaceAlignmentHandler._normalize_face f) = none) :
    FaceAlignmentHandler.faceParts imencode faces
      = .error (.valueError "Failed to encode face") := by
  induction faces with
  | nil => simp at h
  | cons f fs ih =>
    by_cases hf : imencode (FaceAlignmentHandler._normalize_face f) = none
    · simp [FaceAlignmentHandler.faceParts, FaceAlignmentHandler._encode_face, hf,
        Bind.bind, Except.bind]
    · obtain ⟨b, hb⟩ := Option.ne_none_iff_exists'.mp hf
      obtain ⟨g, hg, hgnone⟩ := h
      rcases List.mem_cons.mp hg with hgf | hgfs
      · rw [hgf] at hgnone
        exact absurd hgnone hf
      · simp [FaceAlignmentHandler.faceParts, FaceAlignmentHandler._encode_face, hb,
          ih ⟨g, hgfs, hgnone⟩, Bind.bind, Except.bind]

/-- Closed instance of C7: id 3, a payload the stub codec decodes, a stub
analyzer returning zero faces, and the valid follow-up request handled
normally afterwards. -/
theorem C7_no_faces_detected_witness :
    (fun (_ : List Byte) => some (Img.mk true [])) [9] = some (Img.mk true [])
    ∧ (fun (_ : Img) => (Except.ok [] : Except PyError (List Img))) (Img.mk true [])
        = .ok []
    ∧ FaceAlignmentHandler.on_message (fun _ => some (Img.mk true []))
        (fun _ => .ok []) (fun _ => some []) (packBE 8 3 ++ [9])
      = .text ("Error: " ++ "No faces detected") :=
  ⟨rfl, rfl,
   (C7_no_faces_detected (fun _ => some (Img.mk true [])) (fun _ => .ok [])
      (fun _ => some []) 3 [9] (Img.mk true []) rfl rfl).2.1⟩

/-- C3: when every analyzer face encodes successfully to the byte buffer
listed in `bs` (in detection order), `_prepare_response` produces exactly
the correlation_id as 8 big-endian bytes, then the face count as a 4-byte
big-endian u32, then for each face in order its byte length as a 4-byte
big-endian u32 followed by its raw bytes; the 8-byte header is the
faithful big-endian encoding of the id. -/
theorem C3_alignment_response_exact (imencode : Img → Option (List Byte))
    (cid : Nat) (faces : List Img) (bs : List (List Byte)) (hcid : cid < 2 ^ 64)
    (henc : faces.map (fun f => imencode (FaceAlignmentHandler._normalize_face f))
      = bs.map some) :
    FaceAlignmentHandler._prepare_response imencode cid faces
      = .ok (packBE 8 cid ++ packBE 4 faces.length
          ++ (bs.map (fun b => packBE 4 b.length ++ b)).flatten)
    ∧ (packBE 8 cid).length = 8
    ∧ unpackBE (packBE 8 cid) = cid
    ∧ (packBE 4 faces.length).length = 4 := by
  refine ⟨?_, packBE_length 8 cid, unpackBE_packBE 8 cid hcid, packBE_length 4 _⟩
  simp [FaceAlignmentHandler._prepare_response, faceParts_ok imencode faces bs henc,
    Bind.bind, Except.bind]

/-- Closed instance of C3: the spec scenario — id 42 and two faces whose
encodings are 120 and 95 bytes — yields
`[42 as 8-byte BE][0x00000002][0x00000078][120 bytes][0x0000005F][95 bytes]`. -/
theorem C3_alignment_response_exact_witness :
    (42 : Nat) < 2 ^ 64
    ∧ ([Img.mk true (List.replicate 120 (0, 0, 0)),
        Img.mk true (List.replicate 95 (0, 0, 0))].map
        (fun f => (fun (i : Img) => some (List.replicate i.pix.length 7))
          (FaceAlignmentHandler._normalize_face f)))
      = [List.replicate 120 7, List.replicate 95 7].map some
    ∧ FaceAlignmentHandler._prepare_response
        (fun (i : Img) => some (List.replicate i.pix.length 7)) 42
        [Img.mk true (List.replicate 120 (0, 0, 0)),
         Img.mk true (List.replicate 95 (0, 0, 0))]
      = .ok (packBE 8 42 ++ packBE 4 2
          ++ ([List.replicate 120 7, List.replicate 95 7].map
              (fun b => packBE 4 b.length ++ b)).flatten) :=
  ⟨by norm_num, rfl,
   (C3_alignment_response_exact (fun (i : Img) => some (List.replicate i.pix.length 7))
      42 [Img.mk true (List.replicate 120 (0, 0, 0)),
          Img.mk true (List.replicate 95 (0, 0, 0))]
      [List.replicate 120 7, List.replicate 95 7] (by norm_num) rfl).1⟩

/-- C8: each face is processed in detection order by normalizing to 8-bit
only when not already `uint8` (the min-max rescaling maps the buffer's
value range linearly onto `[0, 255]`: the minimum to 0, the maximum to
255, everything in between inside `[0, 255]`), then converting RGB→BGR,
then encoding; a single face's encode failure makes the whole
`_prepare_response` fail with `ImageEncodeError`
(`ValueError("Failed to encode face")`), so no partial multi-face
response exists. -/
theorem C8_face_normalization_and_abort :
    (∀ face : Img, face.isUint8 = true →
       FaceAlignmentHandler._normalize_face face = cvtColorRGB2BGR face)
    ∧ (∀ face : Img, face.isUint8 = false →
       FaceAlignmentHandler._normalize_face face
         = cvtColorRGB2BGR (normalizeMinMax face)
       ∧ (normalizeMinMax face).isUint8 = true)
    ∧ (∀ mn mx : Int, mn < mx →
       scaleMinMax mn mx mn = 0 ∧ scaleMinMax mn mx mx = 255
       ∧ ∀ x : Int, mn ≤ x → x ≤ mx →
           0 ≤ scaleMinMax mn mx x ∧ scaleMinMax mn mx x ≤ 255)
    ∧ (∀ (imencode : Img → Option (List Byte)) (faces : List Img)
         (bs : List (List Byte)),
       faces.map (fun f => imencode (FaceAlignmentHandler._normalize_face f))
         = bs.map some →
       FaceAlignmentHandler.faceParts imencode faces
         = .ok (bs.map (fun b => packBE 4 b.length ++ b)))
    ∧ (∀ (imencode : Img → Option (List Byte)) (cid : Nat) (faces : List Img),
       (∃ f ∈ faces, imencode (FaceAlignmentHandler._normalize_face f) = none) →
       FaceAlignmentHandler._prepare_response imencode cid faces
         = .error (.valueError "Failed to encode face")) := by
  refine ⟨?_, ?_, ?_, faceParts_ok, ?_⟩
  · intro face hf
    simp [FaceAlignmentHandler._normalize_face, hf]
  · intro face hf
    constructor
    · simp [FaceAlignmentHandler._normalize_face, hf]
    · simp [normalizeMinMax]
  · intro mn mx hlt
    have hne : mx - mn ≠ 0 := by omega
    have hpos : (0 : Int) < mx - mn := by omega
    refine ⟨by simp [scaleMinMax], ?_, ?_⟩
    · simp only [scaleMinMax]
      exact Int.mul_ediv_cancel_left 255 hne
    · intro x hxl hxu
      constructor
      · exact Int.ediv_nonneg
          (mul_nonneg (by omega) (by norm_num)) (le_of_lt hpos)
      · calc (x - mn) * 255 / (mx - mn)
            ≤ (mx - mn) * 255 / (mx - mn) :=
              Int.ediv_le_ediv hpos
                (mul_le_mul_of_nonneg_right (by omega) (by norm_num))
          _ = 255 := Int.mul_ediv_cancel_left 255 hne
  · intro imencode cid faces hex
    simp [FaceAlignmentHandler._prepare_response, faceParts_err imencode faces hex,
      Bind.bind, Except.bind]

/-- Closed instance of C8: an already-8-bit face skips normalization, the
rescaling maps the range `[0, 2]` endpoints to 0 and 255, and one
unencodable face aborts the whole response with the encode error. -/
theorem C8_face_normalization_and_abort_witness :
    FaceAlignmentHandler._normalize_face (Img.mk true [(1, 2, 3)])
      = cvtColorRGB2BGR (Img.mk true [(1, 2, 3)])
    ∧ (scaleMinMax 0 2 0 = 0 ∧ scaleMinMax 0 2 2 = 255)
    ∧ FaceAlignmentHandler._prepare_response (fun _ => none) 1
        [Img.mk false [(0, 0, 1)]]
      = .error (.valueError "Failed to encode face") :=
  ⟨C8_face_normalization_and_abort.1 (Img.mk true [(1, 2, 3)]) rfl,
   ⟨(C8_face_normalization_and_abort.2.2.1 0 2 (by norm_num)).1,
    (C8_face_normalization_and_abort.2.2.1 0 2 (by norm_num)).2.1⟩,
   C8_face_normalization_and_abort.2.2.2.2 (fun _ => none) 1
     [Img.mk false [(0, 0, 1)]] ⟨Img.mk false [(0, 0, 1)], by simp, rfl⟩⟩

theorem tobytes_length (embedding : List FaceRecognitionHandler.Float32) :
    (FaceRecognitionHandler.tobytes embedding).length = 4 * embedding.length := by
  induction embedding with
  | nil => rfl
  | cons v rest ih =>
    simp only [FaceRecognitionHandler.tobytes, List.flatMap_cons,
      List.length_append, List.length_cons] at ih ⊢
    rw [v.len4, ih]
    ring

/-- C4: the embedding response is exactly the correlation_id as 8
big-endian bytes, then the byte length of the float32 vector as a 4-byte
big-endian u32, then the raw float32 bytes concatenated in embedding
order; the byte length is 4 times the vector dimension, and the 8-byte
header decodes back to the id. -/
theorem C4_embedding_response_format (cid : Nat)
    (embedding : List FaceRecognitionHandler.Float32) (hcid : cid < 2 ^ 64) :
    FaceRecognitionHandler._prepare_response cid embedding
      = packBE 8 cid
        ++ packBE 4 (FaceRecognitionHandler.tobytes embedding).length
        ++ FaceRecognitionHandler.tobytes embedding
    ∧ (FaceRecognitionHandler.tobytes embedding).length = 4 * embedding.length
    ∧ (FaceRecognitionHandler._prepare_response cid embedding).take 8 = packBE 8 cid
    ∧ unpackBE ((FaceRecognitionHandler._prepare_response cid embedding).take 8)
        = cid := by
  have hassoc : FaceRecognitionHandler._prepare_response cid embedding
      = packBE 8 cid
        ++ (packBE 4 (FaceRecognitionHandler.tobytes embedding).length
            ++ FaceRecognitionHandler.tobytes embedding) := by
    simp [FaceRecognitionHandler._prepare_response, List.append_assoc]
  have htake : (FaceRecognitionHandler._prepare_response cid embedding).take 8
      = packBE 8 cid := by
    rw [hassoc]
    exact List.take_left' (packBE_length 8 cid)
  refine ⟨rfl, tobytes_length embedding, htake, ?_⟩
  rw [htake]
  exact unpackBE_packBE 8 cid hcid

/-- Closed instance of C4 at id 3 and a one-dimensional embedding (raw
bytes `[0, 0, 128, 63]`): byte length 4 = 4 × 1. -/
theorem C4_embedding_response_format_witness :
    (3 : Nat) < 2 ^ 64
    ∧ FaceRecognitionHandler._prepare_response 3
        [FaceRecognitionHandler.Float32.mk [0, 0, 128, 63] rfl]
      = packBE 8 3
        ++ packBE 4 (FaceRecognitionHandler.tobytes
            [FaceRecognitionHandler.Float32.mk [0, 0, 128, 63] rfl]).length
        ++ FaceRecognitionHandler.tobytes
            [FaceRecognitionHandler.Float32.mk [0, 0, 128, 63] rfl]
    ∧ (FaceRecognitionHandler.tobytes
        [FaceRecognitionHandler.Float32.mk [0, 0, 128, 63] rfl]).length = 4 * 1 :=
  ⟨by norm_num,
   (C4_embedding_response_format 3
      [FaceRecognitionHandler.Float32.mk [0, 0, 128, 63] rfl] (by norm_num)).1,
   (C4_embedding_response_format 3
      [FaceRecognitionHandler.Float32.mk [0, 0, 128, 63] rfl] (by norm_num)).2.1⟩

/-- C10: when the analyzer returns `k ≥ 1` results, `_get_embedding`
keeps only the first result's float32 vector — the conclusion does not
depend on `rest` — and the pipeline's response is the embedding response
for that first vector alone. -/
theorem C10_only_first_embedding (imdecode : List Byte → Option Img)
    (represent : Img → Except PyError (List (List FaceRecognitionHandler.Float32)))
    (cid : Nat) (payload : List Byte) (img : Img)
    (v : List FaceRecognitionHandler.Float32)
    (rest : List (List FaceRecognitionHandler.Float32))
    (hcid : cid < 2 ^ 64) (hdec : imdecode payload = some img)
    (hrep : represent img = .ok (v :: rest)) :
    FaceRecognitionHandler._get_embedding represent img = .ok v
    ∧ FaceRecognitionHandler._process_message imdecode represent
        (packBE 8 cid ++ payload)
      = .ok (FaceRecognitionHandler._prepare_response cid v) := by
  have hget : FaceRecognitionHandler._get_embedding represent img = .ok v := by
    simp [FaceRecognitionHandler._get_embedding, hrep, Bind.bind, Except.bind]
  have htake : (packBE 8 cid ++ payload).take 8 = packBE 8 cid :=
    List.take_left' (packBE_length 8 cid)
  have hdrop : (packBE 8 cid ++ payload).drop 8 = payload :=
    List.drop_left' (packBE_length 8 cid)
  have hq : unpackQ ((packBE 8 cid ++ payload).take 8) = .ok cid := by
    rw [htake]
    simp [unpackQ, packBE_length, unpackBE_packBE 8 cid hcid]
  refine ⟨hget, ?_⟩
  simp [FaceRecognitionHandler._process_message, hq, hdrop,
    FaceRecognitionHandler._decode_image, hdec, hget, Bind.bind, Except.bind]

/-- Closed instance of C10: a stub analyzer returning two results; the
response is built from the first result only. -/
theorem C10_only_first_embedding_witness :
    FaceRecognitionHandler._get_embedding
        (fun _ => .ok [[FaceRecognitionHandler.Float32.mk [1, 2, 3, 4] rfl],
                       [FaceRecognitionHandler.Float32.mk [5, 6, 7, 8] rfl]])
        (Img.mk true [])
      = .ok [FaceRecognitionHandler.Float32.mk [1, 2, 3, 4] rfl]
    ∧ FaceRecognitionHandler._process_message (fun _ => some (Img.mk true []))
        (fun _ => .ok [[FaceRecognitionHandler.Float32.mk [1, 2, 3, 4] rfl],
                       [FaceRecognitionHandler.Float32.mk [5, 6, 7, 8] rfl]])
        (packBE 8 1 ++ [9])
      = .ok (FaceRecognitionHandler._prepare_response 1
          [FaceRecognitionHandler.Float32.mk [1, 2, 3, 4] rfl]) :=
  C10_only_first_embedding (fun _ => some (Img.mk true []))
    (fun _ => .ok [[FaceRecognitionHandler.Float32.mk [1, 2, 3, 4] rfl],
                   [FaceRecognitionHandler.Float32.mk [5, 6, 7, 8] rfl]])
    1 [9] (Img.mk true []) [FaceRecognitionHandler.Float32.mk [1, 2, 3, 4] rfl]
    [[FaceRecognitionHandler.Float32.mk [5, 6, 7, 8] rfl]]
    (by norm_num) rfl rfl

/-- C9 counterexample: two requests whose 8-byte headers parse to the
distinct recoverable correlation ids 1 and 7 and whose payloads both fail
to decode produce byte-identical text error responses, so the error
response cannot carry the request's correlation_id. -/
theorem C9_error_response_counterexample :
    unpackQ ((packBE 8 1 ++ [0, 1, 2]).take 8) = .ok 1
    ∧ unpackQ ((packBE 8 7 ++ [0, 1, 2]).take 8) = .ok 7
    ∧ FaceAlignmentHandler.on_message (fun _ => none) (fun _ => .ok [])
        (fun _ => none) (packBE 8 1 ++ [0, 1, 2])
      = .text "Error: Failed to decode image"
    ∧ FaceAlignmentHandler.on_message (fun _ => none) (fun _ => .ok [])
        (fun _ => none) (packBE 8 7 ++ [0, 1, 2])
      = .text "Error: Failed to decode image"
    ∧ (1 : Nat) ≠ 7 :=
  ⟨rfl, rfl, rfl, rfl, by decide⟩

/-- C9 as amended: every error response is a plain text message built from
the error's message alone — `"Error: " ++ str(e)` on the alignment handler
and `"Error processing image: " ++ str(e)` on the recognition handler —
and does not include the correlation_id even when the 8-byte header was
successfully parsed: for a fixed failing payload the response is the same
for every correlation_id. -/
theorem C9_error_response_text_only :
    (∀ (imdecode : List Byte → Option Img)
       (extract_faces : Img → Except PyError (List Img))
       (imencode : Img → Option (List Byte)) (message : List Byte) (e : PyError),
       FaceAlignmentHandler._process_message imdecode extract_faces imencode message
         = .error e →
       FaceAlignmentHandler.on_message imdecode extract_faces imencode message
         = .text ("Error: " ++ pyStr e))
    ∧ (∀ (imdecode : List Byte → Option Img)
         (represent : Img → Except PyError (List (List FaceRecognitionHandler.Float32)))
         (message : List Byte) (e : PyError),
       FaceRecognitionHandler._process_message imdecode represent message = .error e →
       FaceRecognitionHandler.on_message imdecode represent message
         = .text ("Error processing image: " ++ pyStr e))
    ∧ (∀ (imdecode : List Byte → Option Img)
         (extract_faces : Img → Except PyError (List Img))
         (imencode : Img → Option (List Byte)) (payload : List Byte) (cid cid' : Nat),
       imdecode payload = none →
       FaceAlignmentHandler.on_message imdecode extract_faces imencode
           (packBE 8 cid ++ payload)
         = FaceAlignmentHandler.on_message imdecode extract_faces imencode
           (packBE 8 cid' ++ payload)) := by
  have key : ∀ (imdecode : List Byte → Option Img)
      (extract_faces : Img → Except PyError (List Img))
      (imencode : Img → Option (List Byte)) (payload : List Byte) (cid : Nat),
      imdecode payload = none →
      FaceAlignmentHandler.on_message imdecode extract_faces imencode
          (packBE 8 cid ++ payload)
        = .text ("Error: " ++ "Failed to decode image") := by
    intro imdecode extract_faces imencode payload cid hdec
    have htake : (packBE 8 cid ++ payload).take 8 = packBE 8 cid :=
      List.take_left' (packBE_length 8 cid)
    have hdrop : (packBE 8 cid ++ payload).drop 8 = payload :=
      List.drop_left' (packBE_length 8 cid)
    have hq : unpackQ ((packBE 8 cid ++ payload).take 8)
        = .ok (unpackBE (packBE 8 cid)) := by
      rw [htake]
      simp [unpackQ, packBE_length]
    simp [FaceAlignmentHandler.on_message, FaceAlignmentHandler._process_message,
      hq, hdrop, FaceAlignmentHandler._decode_image, hdec, pyStr,
      Bind.bind, Except.bind]
  refine ⟨?_, ?_, ?_⟩
  · intro imdecode extract_faces imencode message e herr
    simp [FaceAlignmentHandler.on_message, herr]
  · intro imdecode represent message e herr
    simp [FaceRecognitionHandler.on_message, herr]
  · intro imdecode extract_faces imencode payload cid cid' hdec
    rw [key imdecode extract_faces imencode payload cid hdec,
      key imdecode extract_faces imencode payload cid' hdec]

/-- Closed instance of the amended C9: the responses for ids 1 and 7 on
the same undecodable payload coincide, and the text is built from the
error message alone. -/
theorem C9_error_response_text_only_witness :
    FaceAlignmentHandler.on_message (fun _ => none) (fun _ => .ok [])
        (fun _ => none) (packBE 8 1 ++ [5])
      = FaceAlignmentHandler.on_message (fun _ => none) (fun _ => .ok [])
        (fun _ => none) (packBE 8 7 ++ [5])
    ∧ FaceAlignmentHandler.on_message (fun _ => none) (fun _ => .ok [])
        (fun _ => none) [1]
      = .text ("Error: "
          ++ pyStr (.structError "unpack requires a buffer of 8 bytes")) :=
  ⟨C9_error_response_text_only.2.2 (fun _ => none) (fun _ => .ok [])
     (fun _ => none) [5] 1 7 rfl,
   C9_error_response_text_only.1 (fun _ => none) (fun _ => .ok [])
     (fun _ => none) [1] _ rfl⟩

/-- C1: with the per-connection guard (at most one in-flight pipeline run:
`SessState.running` holds at most one; an arriving message queues in FIFO
order instead of being dropped), every complete schedule of a connection —
whatever per-message offload durations the `acquire` steps pick — writes
exactly the handler's responses in the order the requests arrived. -/
theorem C1_responses_in_request_order (h : List Byte → OutMsg)
    (msgs : List (List Byte)) (outs : List OutMsg)
    (htrace : Steps h ⟨msgs, [], none, []⟩ ⟨[], [], none, outs⟩) :
    outs = msgs.map h := by
  have hinit : SessInv h msgs ⟨msgs, [], none, []⟩ := by
    refine ⟨[], by simp, ?_⟩
    simp [pendingOf, runList]
  obtain ⟨done, hout, hpend⟩ := sessInv_steps htrace hinit
  simp only [pendingOf, runList, List.append_nil] at hpend
  simp only at hout
  rw [hout, hpend]

/-- Closed instance of C1: a two-message schedule in which the second
message arrives while the first holds the guard and the first run takes
an extra offload step; the responses still come out in arrival order. -/
theorem C1_responses_in_request_order_witness :
    ([OutMsg.binary [1], OutMsg.binary [2]] : List OutMsg)
      = ([[1], [2]] : List (List Byte)).map (fun m => OutMsg.binary m) := by
  apply C1_responses_in_request_order
  refine Relation.ReflTransGen.head (SStep.arrive [1] [[2]] [] none []) ?_
  refine Relation.ReflTransGen.head (SStep.acquire [[2]] [1] [] [] 1) ?_
  refine Relation.ReflTransGen.head (SStep.arrive [2] [] [] (some ([1], 1)) []) ?_
  refine Relation.ReflTransGen.head (SStep.work [] ([] ++ [[2]]) [1] 0 []) ?_
  refine Relation.ReflTransGen.head (SStep.finish [] ([] ++ [[2]]) [1] []) ?_
  refine Relation.ReflTransGen.head
    (SStep.acquire [] [2] [] ([] ++ [OutMsg.binary [1]]) 0) ?_
  refine Relation.ReflTransGen.head
    (SStep.finish [] [] [2] ([] ++ [OutMsg.binary [1]])) ?_
  exact Relation.ReflTransGen.refl

end FaceWS
